import Mathlib

/-!
Verification of the DeskMixer firmware (extended variant, the file with the
debounce logic and the configuration request; the plain `DeskMixer.ino`
variant differs only in wire labels, baud rate and the absence of debounce
and config handling).

The firmware state touched by the claims is embedded shallowly:
* machine time (`millis()`) is a monotonically increasing number of
  milliseconds, modelled as `Nat`; the C `unsigned long` subtraction
  `now - last` equals `(now - last) % 2^32` for a monotone clock, which is
  captured by `elapsedMs`;
* per-button firmware state (`previousButtonValues[i]`, `lastButtonChange[i]`)
  is a `ButtonState`;
* `Serial.println` output is collected as a `List String` of emitted lines;
* the Arduino `String` type is Lean `String`.
-/

namespace DeskMixer

/-- Source constant `NUM_SLIDERS = 4`. -/
def NUM_SLIDERS : Nat := 4

/-- Source constant `NUM_BUTTONS = 6`. -/
def NUM_BUTTONS : Nat := 6

/-- Source constant `SCREEN_ACTIVE = 1`. -/
def SCREEN_ACTIVE : Nat := 1

/-- Source constant `SEND_INTERVAL_MS = 10` (telemetry interval). -/
def SEND_INTERVAL_MS : Nat := 10

/-- Source constant `DEBOUNCE_MS = 10` (button debounce window). -/
def DEBOUNCE_MS : Nat := 10

/-- Source constant `HANDSHAKE_REQUEST`. -/
def HANDSHAKE_REQUEST : String := "DeskMixer controller request"

/-- Source constant `HANDSHAKE_RESPONSE`. -/
def HANDSHAKE_RESPONSE : String := "DeskMixer Controller Ready"

/-- Source constant `CONFIG_REQUEST`. -/
def CONFIG_REQUEST : String := "GET_CONFIG"

/-- Source constant `CONFIG_RESPONSE`, built by concatenation exactly as in
the source: `"CONFIG:SLIDERS:" + String(NUM_SLIDERS) + ":BUTTONS:" +
String(NUM_BUTTONS) + ":SCREEN:" + String(SCREEN_ACTIVE)`. -/
def CONFIG_RESPONSE : String :=
  "CONFIG:SLIDERS:" ++ toString NUM_SLIDERS ++ ":BUTTONS:" ++
    toString NUM_BUTTONS ++ ":SCREEN:" ++ toString SCREEN_ACTIVE

/-- The C expression `now - last` on `unsigned long` millisecond timestamps.
For a monotone clock (`last` is an earlier reading of the same counter, so
`last ≤ now` in the model) the 32-bit wrap-around subtraction computes
exactly `(now - last) % 2^32`. -/
def elapsedMs (now last : Nat) : Nat :=
  (now - last) % 4294967296

/-- The per-button firmware state: `previousButtonValues[i]` (as a `Bool`,
`true` = pressed) and `lastButtonChange[i]` (milliseconds). -/
structure ButtonState where
  prev : Bool
  lastChange : Nat
  deriving Repr, DecidableEq

/-- Boot values: `previousButtonValues[i] = 0`, `lastButtonChange[i] = 0`. -/
def buttonInit : ButtonState := { prev := false, lastChange := 0 }

/-- Loop body of `checkAndSendButtonEvents` for a single button channel
(source lines 187-210): given the time `now`, the freshly sampled state
`cur` (`buttonValues[i]`) and the stored state `s`, it fires exactly when
`current == 1 && previous == 0` and `now - lastButtonChange[i] > DEBOUNCE_MS`;
on firing it sets `lastButtonChange[i] = now`; in every case it sets
`previousButtonValues[i] = current`. Returns the new state and whether the
press event line was emitted. -/
def btnStep (now : Nat) (cur : Bool) (s : ButtonState) : ButtonState × Bool :=
  let fire := cur && !s.prev && decide (elapsedMs now s.lastChange > DEBOUNCE_MS)
  ({ prev := cur, lastChange := if fire then now else s.lastChange }, fire)

/-- The event line `"Button " + String(i + 1) + " 1"` printed for the button
at 0-based array position `i`. -/
def buttonEventLine (i : Nat) : String :=
  "Button " ++ toString (i + 1) ++ " 1"

/-- `checkAndSendButtonEvents` (source lines 184-211), starting the loop at
array position `i`: channels are given as the list of pairs
(`buttonValues[i]`, stored state); returns the updated stored states and the
list of lines printed, in print order. -/
def checkAndSendButtonEventsFrom (now : Nat) :
    Nat → List (Bool × ButtonState) → List ButtonState × List String
  | _, [] => ([], [])
  | i, (cur, s) :: rest =>
    let r := btnStep now cur s
    let tail := checkAndSendButtonEventsFrom now (i + 1) rest
    (r.1 :: tail.1, (if r.2 then [buttonEventLine i] else []) ++ tail.2)

/-- `checkAndSendButtonEvents`: the full pass over the button array. -/
def checkAndSendButtonEvents (now : Nat) (chans : List (Bool × ButtonState)) :
    List ButtonState × List String :=
  checkAndSendButtonEventsFrom now 0 chans

/-- The 0-based array positions at which the pass starting at position `i`
fires an event, in emission order. -/
def firedIdxFrom (now : Nat) : Nat → List (Bool × ButtonState) → List Nat
  | _, [] => []
  | i, (cur, s) :: rest =>
    (if (btnStep now cur s).2 then [i] else []) ++ firedIdxFrom now (i + 1) rest

/-- Iterating `btnStep` on one channel over a trace of (time, sampled state)
pairs, one pair per loop iteration; returns the final state and the times at
which an event line was emitted. -/
def runButtonTrace : List (Nat × Bool) → ButtonState → ButtonState × List Nat
  | [], s => (s, [])
  | (t, cur) :: rest, s =>
    let r := btnStep t cur s
    let tail := runButtonTrace rest r.1
    (tail.1, (if r.2 then [t] else []) ++ tail.2)

/-- One slider entry `"Slider " + String(i + 1) + " " + String(v)` for the
slider at 0-based array position `i` (source lines 163-168). -/
def sliderEntry (i v : Nat) : String :=
  "Slider " ++ toString (i + 1) ++ " " ++ toString v

/-- The line built by `sendContinuousSliderValues` (source lines 159-173)
from the slider values starting at array position `i`: entries in order, a
`"|"` separator only between entries (`if (i < NUM_SLIDERS - 1)`). -/
def buildSliderString : Nat → List Nat → String
  | _, [] => ""
  | i, [v] => sliderEntry i v
  | i, v :: rest => sliderEntry i v ++ "|" ++ buildSliderString (i + 1) rest

/-- `sendContinuousSliderValues` (source lines 159-179): builds the line and
prints it only if `NUM_SLIDERS > 0`; the slider values are the current
contents of `analogSliderValues`. -/
def sendContinuousSliderValues (vals : List Nat) : List String :=
  if vals.length > 0 then [buildSliderString 0 vals] else []

/-- The telemetry part of `loop` (source lines 86-92): if
`currentMillis - lastSendTime >= SEND_INTERVAL_MS` then set
`lastSendTime = currentMillis` and call `sendContinuousSliderValues`;
returns the new `lastSendTime` and the lines printed. -/
def telemetryStep (now lastSendTime : Nat) (vals : List Nat) :
    Nat × List String :=
  if elapsedMs now lastSendTime ≥ SEND_INTERVAL_MS then
    (now, sendContinuousSliderValues vals)
  else
    (lastSendTime, [])

/-- The character class removed by Arduino `String::trim()` (C `isspace`):
space, horizontal tab, line feed, vertical tab, form feed, carriage return. -/
def arduinoIsSpace (c : Char) : Bool :=
  c = ' ' || c = '\t' || c = '\n' || c = '\x0b' || c = '\x0c' || c = '\r'

/-- Arduino `String::trim()`: remove leading and trailing whitespace. -/
def arduinoTrim (s : String) : String :=
  String.mk (((s.data.dropWhile arduinoIsSpace).reverse.dropWhile
    arduinoIsSpace).reverse)

/-- `processSerialCommand` (source lines 121-135): trim the command in
place, answer the handshake request with `HANDSHAKE_RESPONSE`, the config
request with `CONFIG_RESPONSE`, and print nothing otherwise. Returns the
lines printed. -/
def processSerialCommand (command : String) : List String :=
  if arduinoTrim command = HANDSHAKE_REQUEST then [HANDSHAKE_RESPONSE]
  else if arduinoTrim command = CONFIG_REQUEST then [CONFIG_RESPONSE]
  else []

/-- Body of the `while` loop in `checkSerialInput` (source lines 104-115)
for one received character: a terminator (`'\n'` or `'\r'`) dispatches the
accumulated buffer if it is non-empty and clears it; any other character is
appended. Returns the new buffer and the lines printed. -/
def feedChar (buf : String) (c : Char) : String × List String :=
  if c = '\n' ∨ c = '\r' then
    if buf.length > 0 then ("", processSerialCommand buf) else (buf, [])
  else (buf.push c, [])

/-- `checkSerialInput` (source lines 102-117): drain the pending characters
through `feedChar`, threading the `inputBuffer` and concatenating output. -/
def checkSerialInput (buf : String) : List Char → String × List String
  | [] => (buf, [])
  | c :: cs =>
    let r := feedChar buf c
    let tail := checkSerialInput r.1 cs
    (tail.1, r.2 ++ tail.2)

/-! ## Helper lemmas -/

theorem btnStep_fire_iff (now : Nat) (cur : Bool) (s : ButtonState) :
    (btnStep now cur s).2 = true ↔
      cur = true ∧ s.prev = false ∧ elapsedMs now s.lastChange > DEBOUNCE_MS := by
  simp [btnStep, Bool.and_eq_true, Bool.not_eq_true', and_assoc]

theorem btnStep_prev (now : Nat) (cur : Bool) (s : ButtonState) :
    ((btnStep now cur s).1).prev = cur := rfl

theorem checkFrom_prev (now : Nat) (chans : List (Bool × ButtonState)) :
    ∀ i, ((checkAndSendButtonEventsFrom now i chans).1).map (fun s => s.prev) =
      chans.map Prod.fst := by
  induction chans with
  | nil => intro i; rfl
  | cons p rest ih =>
    intro i
    obtain ⟨cur, s⟩ := p
    simp [checkAndSendButtonEventsFrom, ih, btnStep_prev]

theorem firedIdxFrom_le (now : Nat) (chans : List (Bool × ButtonState)) :
    ∀ i j, j ∈ firedIdxFrom now i chans → i ≤ j := by
  induction chans with
  | nil => intro i j h; simp [firedIdxFrom] at h
  | cons p rest ih =>
    intro i j h
    obtain ⟨cur, s⟩ := p
    by_cases hf : (btnStep now cur s).2
    · simp [firedIdxFrom, hf] at h
      rcases h with h | h
      · omega
      · have := ih (i + 1) j h
        omega
    · simp [firedIdxFrom, hf] at h
      have := ih (i + 1) j h
      omega

theorem firedIdxFrom_pairwise (now : Nat) (chans : List (Bool × ButtonState)) :
    ∀ i, List.Pairwise (· < ·) (firedIdxFrom now i chans) := by
  induction chans with
  | nil => intro i; simp [firedIdxFrom]
  | cons p rest ih =>
    intro i
    obtain ⟨cur, s⟩ := p
    by_cases hf : (btnStep now cur s).2
    · simp [firedIdxFrom, hf, List.pairwise_cons]
      refine ⟨fun j hj => ?_, ih (i + 1)⟩
      have := firedIdxFrom_le now rest (i + 1) j hj
      omega
    · simp [firedIdxFrom, hf]
      exact ih (i + 1)

theorem checkFrom_out (now : Nat) (chans : List (Bool × ButtonState)) :
    ∀ i, (checkAndSendButtonEventsFrom now i chans).2 =
      (firedIdxFrom now i chans).map buttonEventLine := by
  induction chans with
  | nil => intro i; rfl
  | cons p rest ih =>
    intro i
    obtain ⟨cur, s⟩ := p
    by_cases hf : (btnStep now cur s).2 <;>
      simp [checkAndSendButtonEventsFrom, firedIdxFrom, hf, ih]

theorem runButtonTrace_pressed_silent :
    ∀ (trace : List (Nat × Bool)) (s : ButtonState), s.prev = true →
      (∀ p ∈ trace, p.2 = true) → (runButtonTrace trace s).2 = [] := by
  intro trace
  induction trace with
  | nil => intro s _ _; rfl
  | cons p rest ih =>
    intro s hprev hall
    obtain ⟨t, cur⟩ := p
    have hcur : cur = true := hall (t, cur) (List.mem_cons_self _ _)
    subst hcur
    simp [runButtonTrace, btnStep, hprev]
    exact ih _ rfl (fun q hq => hall q (List.mem_cons_of_mem _ hq))

/-! ## Claim theorems -/

/-- C1 (counterexample): the claim as stated says a press event fires when
at least 10 ms (`≥ DEBOUNCE_MS`) have elapsed since the last accepted
transition. Run the channel from boot: the press at t = 11 is accepted
(emitted), the channel is released at t = 12, and it is pressed again at
t = 21, a false→true transition with exactly 10 ms elapsed since the last
accepted transition — at least the window, so the claim requires an event —
yet the code (`now - lastButtonChange[i] > DEBOUNCE_MS`, strict) emits
nothing. -/
theorem c1_counterexample :
    runButtonTrace [(11, true), (12, false)] buttonInit =
      ({ prev := false, lastChange := 11 }, [11]) ∧
    (btnStep 21 true { prev := false, lastChange := 11 }).2 = false ∧
    DEBOUNCE_MS ≤ elapsedMs 21 11 ∧
    ({ prev := false, lastChange := 11 } : ButtonState).prev = false := by
  decide

/-- C1 (amended): at every iteration, a press event is emitted for a channel
if and only if the channel transitions false→true and STRICTLY MORE than the
10 ms debounce window has elapsed since that channel's last accepted
transition (elapsed time exactly equal to the window is suppressed); a
true→false transition never emits an event. -/
theorem c1_press_iff_strictly_elapsed (now : Nat) (cur : Bool) (s : ButtonState) :
    ((btnStep now cur s).2 = true ↔
      cur = true ∧ s.prev = false ∧ elapsedMs now s.lastChange > DEBOUNCE_MS) ∧
    (cur = false → (btnStep now cur s).2 = false) := by
  refine ⟨btnStep_fire_iff now cur s, fun h => ?_⟩
  subst h
  simp [btnStep]

/-- C1 (witness for the amended claim): a press 12 ms after boot fires, and a
released sample emits nothing. -/
theorem c1_press_iff_strictly_elapsed_witness :
    (btnStep 12 true buttonInit).2 = true ∧
    (btnStep 12 false buttonInit).2 = false :=
  ⟨(c1_press_iff_strictly_elapsed 12 true buttonInit).1.mpr (by decide),
   (c1_press_iff_strictly_elapsed 12 false buttonInit).2 rfl⟩

/-- C6: after a full pass of `checkAndSendButtonEvents`, the stored previous
state of every digital channel equals the state sampled this iteration
(`previousButtonValues[i] = current` runs unconditionally, whether the event
fired or was suppressed). -/
theorem c6_prev_tracks_current (now : Nat) (chans : List (Bool × ButtonState)) :
    ((checkAndSendButtonEvents now chans).1).map (fun s => s.prev) =
      chans.map Prod.fst :=
  checkFrom_prev now chans 0

/-- C8: if a false→true transition at time `t0` is suppressed by the
debounce window (elapsed time since the last accepted transition at most
`DEBOUNCE_MS`), and the channel then stays pressed for the rest of the
trace, no press event is ever emitted for that physical press: the previous
state is still updated to pressed, so every later iteration sees
`previous = 1` and cannot fire until a release is observed first. -/
theorem c8_suppressed_press_never_reported (s : ButtonState) (t0 : Nat)
    (trace : List (Nat × Bool)) (hprev : s.prev = false)
    (hsup : elapsedMs t0 s.lastChange ≤ DEBOUNCE_MS)
    (hheld : ∀ p ∈ trace, p.2 = true) :
    (runButtonTrace ((t0, true) :: trace) s).2 = [] ∧
    ((btnStep t0 true s).1).prev = true := by
  have hnot : ¬ (elapsedMs t0 s.lastChange > DEBOUNCE_MS) := by omega
  have hfire : (btnStep t0 true s).2 = false := by
    simp [btnStep, hprev, hnot]
  refine ⟨?_, rfl⟩
  simp [runButtonTrace, hfire]
  exact runButtonTrace_pressed_silent trace _ rfl hheld

/-- C8 (witness): a press 5 ms after boot is suppressed, and holding the
button through t = 6 and t = 100 emits nothing at all. -/
theorem c8_suppressed_press_never_reported_witness :
    (runButtonTrace [(5, true), (6, true), (100, true)] buttonInit).2 = [] :=
  (c8_suppressed_press_never_reported buttonInit 5 [(6, true), (100, true)]
    rfl (by decide) (by decide)).1

/-- C9: in a single pass of `checkAndSendButtonEvents`, the emitted lines
are exactly one `"Button <i+1> 1"` line per firing array position, so each
channel emits at most one event (the firing positions are pairwise strictly
increasing, hence duplicate-free), and the lines appear in ascending
channel-index order (the positions are emitted in strictly increasing
order, and each line carries the 1-based index of its position). -/
theorem c9_one_event_per_channel_ascending (now : Nat)
    (chans : List (Bool × ButtonState)) :
    (checkAndSendButtonEvents now chans).2 =
      (firedIdxFrom now 0 chans).map buttonEventLine ∧
    List.Pairwise (· < ·) (firedIdxFrom now 0 chans) :=
  ⟨checkFrom_out now chans 0, firedIdxFrom_pairwise now chans 0⟩

/-- C2: on any iteration where at least `SEND_INTERVAL_MS` (10 ms) have
elapsed since the last telemetry emission, the scheduler resets the
last-emission time to the current time and emits exactly one aggregate line
(the full ordered slider report) — unless there are zero analog channels;
with zero analog channels no telemetry line is ever emitted, due or not. -/
theorem c2_telemetry_schedule (now last : Nat) (vals : List Nat) :
    (SEND_INTERVAL_MS ≤ elapsedMs now last →
      telemetryStep now last vals =
        (now, if vals = [] then [] else [buildSliderString 0 vals])) ∧
    (vals = [] → (telemetryStep now last vals).2 = []) := by
  constructor
  · intro h
    simp only [telemetryStep, if_pos h]
    cases vals <;> simp [sendContinuousSliderValues]
  · intro h
    subst h
    simp only [telemetryStep, sendContinuousSliderValues]
    split <;> simp

/-- C2 (witness): a due iteration with two channels emits the one line and
resets the clock; a due iteration with zero channels emits nothing. -/
theorem c2_telemetry_schedule_witness :
    telemetryStep 20 5 [7, 9] = (20, [buildSliderString 0 [7, 9]]) ∧
    (telemetryStep 30 0 ([] : List Nat)).2 = [] := by
  constructor
  · have h := (c2_telemetry_schedule 20 5 [7, 9]).1 (by decide)
    simpa using h
  · exact (c2_telemetry_schedule 30 0 []).2 rfl

/-- C3: feeding the engine, from an empty accumulator, the bytes of the
handshake request followed by CR LF and one more LF produces exactly one
handshake-response line: the CR dispatches the request, and each of the two
following terminators arrives on an empty accumulator and is a no-op. -/
theorem c3_handshake_round_trip :
    checkSerialInput "" (HANDSHAKE_REQUEST.data ++ ['\r', '\n', '\n']) =
      ("", [HANDSHAKE_RESPONSE]) ∧
    feedChar "" '\n' = ("", []) ∧
    feedChar "" '\r' = ("", []) := by
  decide

/-- C4: any received line whose trimmed content is `"GET_CONFIG"` is
answered with exactly the configuration response, and for this device
(4 sliders, 6 buttons, screen flag 1) that response is the literal string
`"CONFIG:SLIDERS:4:BUTTONS:6:SCREEN:1"`. -/
theorem c4_config_response (line : String)
    (h : arduinoTrim line = CONFIG_REQUEST) :
    processSerialCommand line = [CONFIG_RESPONSE] ∧
    CONFIG_RESPONSE = "CONFIG:SLIDERS:4:BUTTONS:6:SCREEN:1" := by
  refine ⟨?_, by decide⟩
  simp only [processSerialCommand, h]
  decide

/-- C4 (witness): the exact line `"GET_CONFIG"` gets the config response. -/
theorem c4_config_response_witness :
    processSerialCommand "GET_CONFIG" = [CONFIG_RESPONSE] :=
  (c4_config_response "GET_CONFIG" (by decide)).1

/-- C5: with the sample buffer holding `{200, 800, 0, 1023}`, a due
telemetry iteration emits exactly the line
`"Slider 1 200|Slider 2 800|Slider 3 0|Slider 4 1023"`: values in channel
order, 1-based labels, pipe delimiter between entries only. -/
theorem c5_telemetry_line_format :
    telemetryStep 10 0 [200, 800, 0, 1023] =
      (10, ["Slider 1 200|Slider 2 800|Slider 3 0|Slider 4 1023"]) ∧
    sendContinuousSliderValues [200, 800, 0, 1023] =
      ["Slider 1 200|Slider 2 800|Slider 3 0|Slider 4 1023"] := by
  decide

/-- C7: a complete (non-empty) inbound line whose trimmed content matches
neither recognized request produces no output at all, and the terminator
that completed it clears the accumulator, so the next line starts fresh. -/
theorem c7_unknown_line_silent (line : String) (h0 : line.length > 0)
    (h1 : arduinoTrim line ≠ HANDSHAKE_REQUEST)
    (h2 : arduinoTrim line ≠ CONFIG_REQUEST) :
    processSerialCommand line = [] ∧
    feedChar line '\n' = ("", []) ∧
    feedChar line '\r' = ("", []) := by
  have hp : processSerialCommand line = [] := by
    simp only [processSerialCommand, if_neg h1, if_neg h2]
  refine ⟨hp, ?_, ?_⟩ <;> simp [feedChar, h0, hp]

/-- C7 (witness): the unknown line `"HELLO"` is silently dropped and the
accumulator is cleared. -/
theorem c7_unknown_line_silent_witness :
    processSerialCommand "HELLO" = [] ∧ feedChar "HELLO" '\n' = ("", []) :=
  have h := c7_unknown_line_silent "HELLO" (by decide) (by decide) (by decide)
  ⟨h.1, h.2.1⟩

/-- C10: a non-empty line of whitespace-only characters (no terminators) is
dispatched as a command — the untrimmed accumulator is non-empty, so the
terminator takes the dispatch branch, clearing the buffer and returning
whatever `processSerialCommand` prints — trimming then yields the empty
string, which matches no recognized request, so nothing is printed. -/
theorem c10_whitespace_line_dispatched (line : String) (h0 : line.length > 0)
    (hws : ∀ c ∈ line.data, arduinoIsSpace c ∧ c ≠ '\n' ∧ c ≠ '\r') :
    feedChar line '\n' = ("", processSerialCommand line) ∧
    arduinoTrim line = "" ∧
    processSerialCommand line = [] := by
  have h1 : line.data.dropWhile arduinoIsSpace = [] :=
    List.dropWhile_eq_nil_iff.mpr (fun c hc => (hws c hc).1)
  have htrim : arduinoTrim line = "" := by
    simp [arduinoTrim, h1]
  have hp : processSerialCommand line = [] := by
    simp only [processSerialCommand, htrim]
    decide
  exact ⟨by simp [feedChar, h0], htrim, hp⟩

/-- C10 (witness): a single-space line dispatches, trims to empty, and
produces no output. -/
theorem c10_whitespace_line_dispatched_witness :
    feedChar " " '\n' = ("", processSerialCommand " ") ∧
    processSerialCommand " " = [] :=
  have h := c10_whitespace_line_dispatched " " (by decide) (by decide)
  ⟨h.1, h.2.2⟩

end DeskMixer
